import Mathlib

/-! Shallow embedding of the MeatSocial Human Verification Proof System
(src/backend/src/crypto/verification.ts, src/backend/src/database/models/User.ts
VerificationNodeService part, src/unnamed/part_006 NodeKeyManager,
src/shared/src/utils/crypto.ts).

Modelling conventions:
* Timestamps are integers in milliseconds (a JS Date / ISO-8601 string and its
  epoch-millisecond value are in bijection at the precision the code uses).
* Ed25519 is modelled ideally: a private key is a natural number, the derived
  public key is an injective, fixed-point-free function of it (faithful to
  Ed25519, where the public key bytes never equal the seed bytes), a signature
  records the signing key's derived public key and the signed message, and
  verification checks both.  The code only ever verifies honestly produced
  signatures, so no forgery model is needed.
* SHA-256 is modelled as an injective formal digest of its input string.
* Functions that read the wall clock in the source take the clock values as
  explicit arguments, one per distinct clock read in the source.
-/

namespace MeatSocial

/-- Idealized Ed25519 public-key derivation: injective and without fixed
points, mirroring that an Ed25519 seed and its derived public key differ. -/
def derivePub (sk : Nat) : Nat := sk + 1

/-- An Ed25519 signature, idealized: it determines the signer's public key and
the signed message. -/
structure EdSig where
  pub : Nat
  msg : String
deriving DecidableEq

/-- ed25519.sign: sign a message (here the hex proof hash; signing the hex
string and verifying the hex-decoded bytes agree byte-for-byte in the source)
with a private key. -/
def edSign (msg : String) (sk : Nat) : EdSig := ⟨derivePub sk, msg⟩

/-- ed25519.verify: a signature verifies against a public key and message iff
it was produced over that message by the key deriving that public key. -/
def edVerify (sig : EdSig) (msg : String) (pk : Nat) : Bool :=
  sig.pub = pk && sig.msg = msg

/-- Idealized SHA-256 hex digest: a formal, injective digest of the input. -/
def sha256Hex (s : String) : String := "sha256:" ++ s

/-- VerificationCeremonyData (verification.ts lines 15-22). -/
structure VerificationCeremonyData where
  userId : String
  nodeId : String
  documentHash : String
  biometricHash : String
  timestamp : Int
  operatorId : String
deriving DecidableEq

/-- VerificationProofData (verification.ts lines 5-13).  The
verifierSignature is the base64 signature string; the token validator
reconstructs proofs with an empty signature string, modelled as none. -/
structure VerificationProofData where
  userId : String
  nodeId : String
  timestamp : Int
  verifierSignature : Option EdSig
  proofHash : String
  expiresAt : Int
  metaVersion : String
  metaOperatorId : String
deriving DecidableEq

/-- VALIDITY_DAYS * 24 * 60 * 60 * 1000 (verification.ts line 26/36). -/
def VALIDITY_MS : Int := 90 * 24 * 60 * 60 * 1000

/-- The canonical proof payload serialization hashed by generateProofHash
(verification.ts lines 39-48, 121-124): JSON.stringify with the keys in
sorted order is a fixed deterministic serialization of the eight fields. -/
def proofPayloadString (cd : VerificationCeremonyData) (timestamp expiresAt : Int) : String :=
  "biometricHash=" ++ cd.biometricHash ++
  ";documentHash=" ++ cd.documentHash ++
  ";expiresAt=" ++ toString expiresAt ++
  ";nodeId=" ++ cd.nodeId ++
  ";operatorId=" ++ cd.operatorId ++
  ";timestamp=" ++ toString timestamp ++
  ";userId=" ++ cd.userId ++
  ";version=v1"

/-- generateVerificationProof (verification.ts lines 31-70).  The source reads
the clock twice: once for timestamp (line 35) and once for expiresAt
(line 36); t1 and t2 are those two reads. -/
def generateVerificationProof (cd : VerificationCeremonyData) (nodePrivateKey : Nat)
    (t1 t2 : Int) : VerificationProofData :=
  let timestamp := t1
  let expiresAt := t2 + VALIDITY_MS
  let proofHash := sha256Hex (proofPayloadString cd timestamp expiresAt)
  let signature := edSign proofHash nodePrivateKey
  { userId := cd.userId
    nodeId := cd.nodeId
    timestamp := timestamp
    verifierSignature := some signature
    proofHash := proofHash
    expiresAt := expiresAt
    metaVersion := "v1"
    metaOperatorId := cd.operatorId }

/-- Result type of validateVerificationProof. -/
structure ValidationResult where
  isValid : Bool
  reason : Option String
deriving DecidableEq

/-- validateVerificationProof (verification.ts lines 75-116), at clock value
now.  An absent signature string decodes to bytes that fail verification. -/
def validateVerificationProof (proof : VerificationProofData) (nodePublicKey : Nat)
    (now : Int) : ValidationResult :=
  if now > proof.expiresAt then
    { isValid := false, reason := some "Proof has expired" }
  else
    let sigOk := match proof.verifierSignature with
      | some sig => edVerify sig proof.proofHash nodePublicKey
      | none => false
    if !sigOk then
      { isValid := false, reason := some "Invalid signature" }
    else if now - proof.timestamp > VALIDITY_MS then
      { isValid := false, reason := some "Proof is too old" }
    else
      { isValid := true, reason := none }

/-- The scoring core of calculateVerificationTrustScore
(verification.ts lines 222-242) as a function of daysSinceVerification,
computed in exact arithmetic (the source uses IEEE doubles): start at 100,
subtract 0.5 per day, floor at 10, add 10 iff at most 7 days, round to
nearest (JS Math.round is the floor of x + 1/2, as is Lean round on ℚ). -/
def dayScore (d : ℚ) : ℤ :=
  let score : ℚ := 100 - d * (1 / 2)
  let score : ℚ := max 10 score
  let score : ℚ := if d ≤ 7 then score + 10 else score
  round score

/-- daysSinceVerification (verification.ts line 225): millisecond difference
divided by 86400000, exact. -/
def daysSince (timestamp now : Int) : ℚ := ((now - timestamp : Int) : ℚ) / 86400000

/-- calculateVerificationTrustScore (verification.ts lines 222-242) at clock
value now. -/
def calculateVerificationTrustScore (proof : VerificationProofData) (now : Int) : ℤ :=
  dayScore (daysSince proof.timestamp now)

/-! Token codec (verification.ts lines 129-191).

A JS string is represented by the list of segments its split on the dot
separator produces; this is a bijection as long as each segment is free of
dots, which holds for every segment the codec produces (base64 and decimal
alphabets contain no dot).  A segment is a symbolic string: either a plain
dot-free literal, or the base64 of the JSON of a token payload, or the base64
HMAC-SHA256 of a segment under a secret.  Distinct constructor applications
model distinct strings (base64 of JSON is injective; HMAC is modelled as an
ideal MAC, injective in secret and message). -/

/-- The payload serialized into a token (verification.ts lines 130-136). -/
structure TokenPayload where
  userId : String
  nodeId : String
  timestamp : Int
  expiresAt : Int
  proofHash : String
deriving DecidableEq

/-- A symbolic dot-free string segment of a token. -/
inductive Seg where
  /-- an ordinary dot-free string literal -/
  | lit (s : String)
  /-- base64 of the JSON serialization of a token payload -/
  | b64json (p : TokenPayload)
  /-- base64 of the HMAC-SHA256 of a segment under a secret key -/
  | hmac (secret : String) (msg : Seg)
deriving DecidableEq

/-- JS truthiness of a segment: only the empty string is falsy; base64 and
MAC outputs are never empty. -/
def Seg.isEmptyStr : Seg → Bool
  | .lit s => s = ""
  | .b64json _ => false
  | .hmac _ _ => false

/-- JSON.parse of the base64 decode of a segment (verification.ts line 170):
only a segment that is the base64 of a payload JSON parses back to a payload;
anything else makes JSON.parse throw. -/
def Seg.decodePayload : Seg → Option TokenPayload
  | .b64json p => some p
  | _ => none

/-- A token string, represented by its dot-split segment list (nonempty for
every JS string; a string with n dots has n+1 segments). -/
abbrev Token := List Seg

/-- createProofToken (verification.ts lines 129-144): base64 payload, dot,
base64 HMAC of the payload segment under the secret. -/
def createProofToken (proof : VerificationProofData) (secretKey : String) : Token :=
  let payload : TokenPayload :=
    { userId := proof.userId
      nodeId := proof.nodeId
      timestamp := proof.timestamp
      expiresAt := proof.expiresAt
      proofHash := proof.proofHash }
  let payloadString := Seg.b64json payload
  let signature := Seg.hmac secretKey payloadString
  [payloadString, signature]

/-- Result type of validateProofToken. -/
structure TokenValidationResult where
  isValid : Bool
  proof : Option VerificationProofData
  reason : Option String
deriving DecidableEq

/-- validateProofToken (verification.ts lines 149-191) at clock value now.
The source destructures the first two elements of token.split; missing or
empty (falsy) ones give the malformed-token result; segments beyond the
second are ignored.  The MAC comparison is the plain string inequality of
line 165. -/
def validateProofToken (token : Token) (secretKey : String) (now : Int) :
    TokenValidationResult :=
  match token.get? 0, token.get? 1 with
  | some payloadString, some signature =>
    if payloadString.isEmptyStr || signature.isEmptyStr then
      { isValid := false, proof := none, reason := some "Invalid token format" }
    else
      let expectedSignature := Seg.hmac secretKey payloadString
      if signature ≠ expectedSignature then
        { isValid := false, proof := none, reason := some "Invalid token signature" }
      else
        match payloadString.decodePayload with
        | none =>
          { isValid := false, proof := none,
            reason := some "Token validation error" }
        | some payload =>
          if now > payload.expiresAt then
            { isValid := false, proof := none, reason := some "Token has expired" }
          else
            { isValid := true
              proof := some
                { userId := payload.userId
                  nodeId := payload.nodeId
                  timestamp := payload.timestamp
                  verifierSignature := none
                  proofHash := payload.proofHash
                  expiresAt := payload.expiresAt
                  metaVersion := ""
                  metaOperatorId := "" }
              reason := none }
  | _, _ =>
    { isValid := false, proof := none, reason := some "Invalid token format" }

/-! NodeKeyManager private-key encryption (src/unnamed/part_006 lines 66-122).

Byte strings are lists of naturals below 256.  PBKDF2 key derivation is an
ideal, deterministic function of password and salt, kept symbolic; the
aes-256-ctr keystream produced via createCipher (which derives its own
key/IV from the passed key buffer via EVP_BytesToKey and ignores the iv the
source generates but never passes in) is a deterministic byte stream of the
derived key, modelled by an explicit executable stand-in whose only
properties used are determinism and bytewise XOR.  CTR mode is a stream
cipher: cipher.final and decipher.final perform no padding check and cannot
throw, so the catch branch of decryptPrivateKey (part_006 lines 119-121) is
unreachable and the faithful embedding of decryption is a total function. -/

/-- The key derived by deriveKey (part_006 lines 66-77): symbolic PBKDF2
output, a deterministic injective function of password and salt. -/
structure DerivedKey where
  password : String
  salt : String
deriving DecidableEq

/-- Executable stand-in for the aes-256-ctr keystream byte at index i under a
derived key (including the EVP_BytesToKey step of createCipher): any fixed
deterministic byte stream models it, since the claims use only determinism
and XOR. -/
def keystreamByte (k : DerivedKey) (i : Nat) : Nat :=
  (k.password.length * 131 + k.salt.length * 31 + i * 7 + 13) % 256

/-- XOR a byte list against the keystream of a derived key starting at stream
index i, the cipher core shared by encryption and decryption in CTR mode. -/
def ctrXorFrom (k : DerivedKey) (i : Nat) : List Nat → List Nat
  | [] => []
  | b :: bs => (b ^^^ keystreamByte k i) :: ctrXorFrom k (i + 1) bs

/-- XOR a byte list against the keystream of a derived key from the start of
the stream. -/
def ctrXor (k : DerivedKey) (bytes : List Nat) : List Nat := ctrXorFrom k 0 bytes

/-- Result record of encryptPrivateKey. -/
structure EncryptedPrivateKey where
  encrypted : List Nat
  salt : String
  iv : List Nat
deriving DecidableEq

/-- encryptPrivateKey (part_006 lines 82-100).  The source draws the salt and
iv from randomBytes; they are explicit arguments here.  The iv is returned
but never given to createCipher, so it does not enter the ciphertext. -/
def encryptPrivateKey (privateKey : List Nat) (password : String)
    (salt : String) (iv : List Nat) : EncryptedPrivateKey :=
  let key : DerivedKey := ⟨password, salt⟩
  { encrypted := ctrXor key privateKey
    salt := salt
    iv := iv }

/-- decryptPrivateKey (part_006 lines 105-122): re-derive the key from the
stored salt and the supplied password and run the CTR stream over the
ciphertext.  Total: in CTR mode decipher.final cannot throw, so the declared
failure path is dead code and every password yields a byte string. -/
def decryptPrivateKey (encrypted : List Nat) (salt : String)
    (password : String) : List Nat :=
  ctrXor ⟨password, salt⟩ encrypted

/-! VerificationNodeService and its store
(src/backend/src/database/models/User.ts lines 162-539).

The relational store is the record of the tables the service touches.  A
knex transaction is modelled at its observable granularity: the service
either commits, replacing the store by the fully updated one, or rolls back,
leaving the store exactly as it was; other connections never see an
intermediate state.  Each awaited store operation inside the try block can
reject in JS; an optional exception point argument names the operation that
throws, exercising the catch-and-rollback path. -/

/-- A verification_nodes row (User.ts lines 168-182; migration 001 lines
63-80), restricted to the columns the service reads or writes. -/
structure NodeRow where
  id : String
  public_key : Nat
  is_active : Bool
  verification_count : Nat
deriving DecidableEq

/-- A verification_events row (migration 001 lines 43-61), restricted to the
columns the service reads or writes; eventId is the generated primary key
(issued here by a store counter); is_valid defaults to true on insert
(migration 001 line 51) and no insert in the service sets it explicitly. -/
structure EventRow where
  eventId : Nat
  user_id : String
  node_id : String
  proof_hash : String
  node_signature : Option EdSig
  verified_at : Int
  expires_at : Int
  is_valid : Bool
  renewal : Bool
deriving DecidableEq

/-- An audit_logs row as written by the ceremony (User.ts lines 324-335). -/
structure AuditRow where
  user_id : String
  action : String
  resource_type : String
  resource_id : String
deriving DecidableEq

/-- The tables the verification node service touches, plus the event primary
key counter. -/
structure Store where
  nodes : List NodeRow
  events : List EventRow
  audits : List AuditRow
  nextEventId : Nat
deriving DecidableEq

/-- CeremonyRequest (User.ts lines 184-192). -/
structure CeremonyRequest where
  nodeId : String
  operatorId : String
  documentType : String
  documentNumber : String
  fullName : String
  dateOfBirth : String
  biometricData : Option String
deriving DecidableEq

/-- CeremonyResult (User.ts lines 194-199); the verificationProof field holds
the JSON-serialized proof, in bijection with the proof itself. -/
structure CeremonyResult where
  success : Bool
  verificationProof : Option VerificationProofData
  error : Option String
  userId : Option String
deriving DecidableEq

/-- JS String.prototype.toLowerCase, modelled characterwise (agrees with
String.toLower; stated structurally so it evaluates by kernel reduction). -/
def toLowerCase (s : String) : String := String.mk (s.data.map Char.toLower)

/-- hashDocument (User.ts lines 492-495). -/
def hashDocument (request : CeremonyRequest) : String :=
  sha256Hex (toLowerCase (request.documentType ++ ":" ++ request.documentNumber ++ ":" ++
    request.fullName ++ ":" ++ request.dateOfBirth))

/-- hashBiometricData (User.ts lines 500-502). -/
def hashBiometricData (biometricData : String) : String := sha256Hex biometricData

/-- findUserByDocumentHash (User.ts lines 507-511): the source always returns
null ("For now, return null to allow all verifications"). -/
def findUserByDocumentHash (_documentHash : String) : Option String := none

/-- Look up an active node by id, as the where clauses on id and is_active
do. -/
def Store.activeNode (st : Store) (nodeId : String) : Option NodeRow :=
  st.nodes.find? (fun n => n.id = nodeId && n.is_active)

/-- The awaited store operations inside the ceremony try block at which a JS
exception can be raised. -/
inductive CeremonyExc where
  | nodeQuery
  | insertEvent
  | incrementCount
  | insertAudit
  | commit
deriving DecidableEq

/-- conductVerificationCeremony (User.ts lines 258-357).  uuid is the
randomUUID() draw of line 288; t stands for the clock reads of the ceremony
(line 297) and of proof generation (verification.ts lines 35-36), which the
source takes within the same synchronous stretch; exc optionally names the
awaited store operation at which a JS exception is raised, sending control to
the catch block, which rolls the transaction back.  Rollback — explicit at
the gates, via catch on an exception — leaves the store untouched; only
commit publishes the updated tables.  Note line 304 passes node.public_key
as the signing key (its comment: in a real implementation this would be the
private key). -/
def conductVerificationCeremony (st : Store) (req : CeremonyRequest)
    (uuid : String) (t : Int) (exc : Option CeremonyExc) :
    CeremonyResult × Store :=
  if exc = some .nodeQuery then
    ({ success := false, verificationProof := none,
       error := some "Ceremony failed", userId := none }, st)
  else
    match st.activeNode req.nodeId with
    | none =>
      ({ success := false, verificationProof := none,
         error := some "Invalid or inactive verification node", userId := none }, st)
    | some node =>
      let documentHash := hashDocument req
      match findUserByDocumentHash documentHash with
      | some existingUserId =>
        ({ success := false, verificationProof := none,
           error := some "User with this document already exists",
           userId := some existingUserId }, st)
      | none =>
        let ceremonyData : VerificationCeremonyData :=
          { userId := uuid
            nodeId := req.nodeId
            documentHash := documentHash
            biometricHash := match req.biometricData with
              | some b => hashBiometricData b
              | none => ""
            timestamp := t
            operatorId := req.operatorId }
        let verificationProof := generateVerificationProof ceremonyData node.public_key t t
        if exc = some .insertEvent || exc = some .incrementCount ||
            exc = some .insertAudit || exc = some .commit then
          ({ success := false, verificationProof := none,
             error := some "Ceremony failed", userId := none }, st)
        else
          let newEvent : EventRow :=
            { eventId := st.nextEventId
              user_id := uuid
              node_id := req.nodeId
              proof_hash := verificationProof.proofHash
              node_signature := verificationProof.verifierSignature
              verified_at := verificationProof.timestamp
              expires_at := verificationProof.expiresAt
              is_valid := true
              renewal := false }
          let auditRow : AuditRow :=
            { user_id := uuid
              action := "verification_ceremony"
              resource_type := "verification"
              resource_id := uuid }
          let committed : Store :=
            { nodes := st.nodes.map (fun n =>
                if n.id = req.nodeId then
                  { n with verification_count := n.verification_count + 1 }
                else n)
              events := st.events ++ [newEvent]
              audits := st.audits ++ [auditRow]
              nextEventId := st.nextEventId + 1 }
          ({ success := true, verificationProof := some verificationProof,
             error := none, userId := some uuid }, committed)

/-- The awaited store operations inside the renewal try block at which a JS
exception can be raised. -/
inductive RenewalExc where
  | eventQuery
  | invalidateOld
  | nodeQuery
  | insertEvent
  | commit
deriving DecidableEq

/-- renewVerification (User.ts lines 414-487).  t stands for the clock reads
of the renewal and of proof generation; exc as for the ceremony.  The source
invalidates every active event of the user (line 434-436) before looking up
the node, inserts the new event without an explicit is_valid (so the column
default true applies), and only commit publishes the updated events table. -/
def renewVerification (st : Store) (userId nodeId operatorId : String)
    (t : Int) (exc : Option RenewalExc) : CeremonyResult × Store :=
  if exc = some .eventQuery then
    ({ success := false, verificationProof := none,
       error := some "Renewal failed", userId := none }, st)
  else
    match st.events.find? (fun e => e.user_id = userId && e.is_valid) with
    | none =>
      ({ success := false, verificationProof := none,
         error := some "No existing verification found for user", userId := none }, st)
    | some _ =>
      if exc = some .invalidateOld then
        ({ success := false, verificationProof := none,
           error := some "Renewal failed", userId := none }, st)
      else
        let invalidated := st.events.map (fun e =>
          if e.user_id = userId && e.is_valid then { e with is_valid := false } else e)
        let ceremonyData : VerificationCeremonyData :=
          { userId := userId
            nodeId := nodeId
            documentHash := ""
            biometricHash := ""
            timestamp := t
            operatorId := operatorId }
        if exc = some .nodeQuery then
          ({ success := false, verificationProof := none,
             error := some "Renewal failed", userId := none }, st)
        else
          match st.activeNode nodeId with
          | none =>
            ({ success := false, verificationProof := none,
               error := some "Invalid or inactive verification node", userId := none }, st)
          | some node =>
            let verificationProof :=
              generateVerificationProof ceremonyData node.public_key t t
            if exc = some .insertEvent || exc = some .commit then
              ({ success := false, verificationProof := none,
                 error := some "Renewal failed", userId := none }, st)
            else
              let newEvent : EventRow :=
                { eventId := st.nextEventId
                  user_id := userId
                  node_id := nodeId
                  proof_hash := verificationProof.proofHash
                  node_signature := verificationProof.verifierSignature
                  verified_at := verificationProof.timestamp
                  expires_at := verificationProof.expiresAt
                  is_valid := true
                  renewal := true }
              let committed : Store :=
                { st with
                  events := invalidated ++ [newEvent]
                  nextEventId := st.nextEventId + 1 }
              ({ success := true, verificationProof := some verificationProof,
                 error := none, userId := some userId }, committed)

/-- The active (is_valid = true) verification events of a user in a store. -/
def Store.activeEventsFor (st : Store) (userId : String) : List EventRow :=
  st.events.filter (fun e => e.user_id = userId && e.is_valid)

/-- The lifetime verification counter of a node in a store (0 when the node
is absent). -/
def Store.nodeCount (st : Store) (nodeId : String) : Nat :=
  match st.nodes.find? (fun n => n.id = nodeId) with
  | some n => n.verification_count
  | none => 0

/-! Concrete fixtures used to instantiate the theorems below on explicit
inputs. -/

/-- A concrete ceremony input. -/
def cdW : VerificationCeremonyData :=
  { userId := "U", nodeId := "N", documentHash := "d1", biometricHash := "b1",
    timestamp := 0, operatorId := "op" }

/-- A concrete proof generated from cdW with private key 3 at time 0. -/
def proofW : VerificationProofData := generateVerificationProof cdW 3 0 0

/-- A concrete active node with public key 5. -/
def ndW : NodeRow :=
  { id := "N", public_key := 5, is_active := true, verification_count := 2 }

/-- A store holding only the node ndW. -/
def stW : Store := { nodes := [ndW], events := [], audits := [], nextEventId := 0 }

/-- A concrete ceremony request at node N. -/
def reqW : CeremonyRequest :=
  { nodeId := "N", operatorId := "op", documentType := "passport",
    documentNumber := "1", fullName := "A B", dateOfBirth := "2000-01-01",
    biometricData := some "bio" }

/-- The ceremony data the orchestrator builds from reqW with uuid U at time
0, and the proof it generates from it with the stored key of ndW (the
public key, per User.ts line 304). -/
def cerProofW : VerificationProofData :=
  generateVerificationProof
    { userId := "U", nodeId := "N", documentHash := hashDocument reqW,
      biometricHash := hashBiometricData "bio", timestamp := 0,
      operatorId := "op" } 5 0 0

/-- A concrete active verification event for user U. -/
def evW : EventRow :=
  { eventId := 0, user_id := "U", node_id := "N", proof_hash := "h",
    node_signature := none, verified_at := 0, expires_at := 100,
    is_valid := true, renewal := false }

/-- A store with node ndW and the one active event evW. -/
def stRenewW : Store :=
  { nodes := [ndW], events := [evW], audits := [], nextEventId := 1 }

/-! Theorems. -/

/-- Rounding on ℚ is monotone. -/
theorem round_rat_mono {x y : ℚ} (h : x ≤ y) : round x ≤ round y := by
  rw [round_eq, round_eq]
  exact Int.floor_le_floor (by linarith)

/-- C1: a proof generated from any ceremony input with private key sk
validates (before expiry) against the matching public key derivePub sk, and
fails validation against any other public key. -/
theorem c1_generate_validate_roundtrip
    (cd : VerificationCeremonyData) (sk : Nat) (t now : Int)
    (hnow : now ≤ t + VALIDITY_MS) :
    (validateVerificationProof (generateVerificationProof cd sk t t)
      (derivePub sk) now).isValid = true ∧
    ∀ pk2 : Nat, pk2 ≠ derivePub sk →
      (validateVerificationProof (generateVerificationProof cd sk t t)
        pk2 now).isValid = false := by
  have hexp : ¬ now > t + VALIDITY_MS := by omega
  have hage : ¬ now - t > VALIDITY_MS := by omega
  constructor
  · simp only [validateVerificationProof, generateVerificationProof, edSign, edVerify]
    rw [if_neg hexp]
    simp [hage]
  · intro pk2 hpk2
    simp only [validateVerificationProof, generateVerificationProof, edSign, edVerify]
    rw [if_neg hexp]
    simp [Ne.symm hpk2]

/-- C1 witness: the round-trip at a concrete ceremony input, key pair and
clock, and rejection at a distinct concrete public key. -/
theorem c1_generate_validate_roundtrip_witness :
    (validateVerificationProof (generateVerificationProof cdW 3 0 0)
      (derivePub 3) 100).isValid = true ∧
    (validateVerificationProof (generateVerificationProof cdW 3 0 0)
      9 100).isValid = false := by
  have h := c1_generate_validate_roundtrip cdW 3 0 100 (by decide)
  exact ⟨h.1, h.2 9 (by decide)⟩

/-- C4 counterexample: at daysSinceVerification = 0 the trust score is 110,
not 100 — the +10 fresh-verification bonus applies on top of the base 100. -/
theorem c4_day_zero_counterexample :
    calculateVerificationTrustScore proofW 0 = 110 ∧ (110 : ℤ) ≠ 100 := by
  constructor
  · show dayScore (daysSince proofW.timestamp 0) = 110
    rw [show proofW.timestamp = 0 from rfl]
    simp only [dayScore, daysSince]
    norm_num
  · decide

/-- C4 as amended: calculateVerificationTrustScore computes
round(bonus(max(10, 100 - 0.5 * daysSinceVerification))) with the +10 bonus
applied exactly when daysSinceVerification ≤ 7; it is monotonically
non-increasing in daysSinceVerification beyond the 7-day boundary, is always
at least 10, and equals 110 (not 100) at daysSinceVerification = 0. -/
theorem c4_trust_score_shape :
    (∀ proof : VerificationProofData, ∀ now : Int,
      calculateVerificationTrustScore proof now =
        round (if daysSince proof.timestamp now ≤ 7 then
            max 10 (100 - daysSince proof.timestamp now * (1 / 2)) + 10
          else
            max 10 (100 - daysSince proof.timestamp now * (1 / 2)))) ∧
    (∀ d1 d2 : ℚ, 7 < d1 → d1 ≤ d2 → dayScore d2 ≤ dayScore d1) ∧
    (∀ d : ℚ, 10 ≤ dayScore d) ∧
    dayScore 0 = 110 := by
  refine ⟨fun proof now => rfl, fun d1 d2 h7 h12 => ?_, fun d => ?_,
    by simp only [dayScore]; norm_num⟩
  · have hn1 : ¬ d1 ≤ 7 := by linarith
    have hn2 : ¬ d2 ≤ 7 := by linarith
    simp only [dayScore, if_neg hn1, if_neg hn2]
    exact round_rat_mono (max_le_max le_rfl (by linarith))
  · have hbase : (10 : ℚ) ≤ max 10 (100 - d * (1 / 2)) := le_max_left _ _
    have h10 : round ((10 : ℚ)) = 10 := by
      rw [round_eq]
      norm_num [Int.floor_eq_iff]
    simp only [dayScore]
    split
    · calc (10 : ℤ) = round ((10 : ℚ)) := h10.symm
        _ ≤ round (max 10 (100 - d * (1 / 2)) + 10) := round_rat_mono (by linarith)
    · calc (10 : ℤ) = round ((10 : ℚ)) := h10.symm
        _ ≤ round (max 10 (100 - d * (1 / 2))) := round_rat_mono hbase

/-- C4 witness: the lower bound and the monotonicity beyond the 7-day
boundary at concrete day counts. -/
theorem c4_trust_score_shape_witness :
    10 ≤ dayScore 30 ∧ dayScore 20 ≤ dayScore 8 := by
  exact ⟨c4_trust_score_shape.2.2.1 30,
    c4_trust_score_shape.2.1 8 20 (by norm_num) (by norm_num)⟩

/-- C7 counterexample: the source reads the clock once for timestamp and
again for expiresAt; when the second read is 1 ms after the first, the
difference expiresAt - timestamp is 90 days + 1 ms, not 90 days. -/
theorem c7_clock_drift_counterexample :
    (generateVerificationProof cdW 3 0 1).expiresAt -
      (generateVerificationProof cdW 3 0 1).timestamp = VALIDITY_MS + 1 ∧
    VALIDITY_MS + 1 ≠ VALIDITY_MS := by
  constructor
  · decide
  · decide

/-- C7 as amended: expiresAt equals the second clock read + 90 days while
timestamp equals the first clock read, so expiresAt - timestamp is 90 days
plus the drift between the two reads, and is exactly 90 days whenever the
two reads return the same millisecond. -/
theorem c7_expiry_window :
    (∀ (cd : VerificationCeremonyData) (sk : Nat) (t1 t2 : Int),
      (generateVerificationProof cd sk t1 t2).expiresAt -
        (generateVerificationProof cd sk t1 t2).timestamp =
        VALIDITY_MS + (t2 - t1)) ∧
    ∀ (cd : VerificationCeremonyData) (sk : Nat) (t : Int),
      (generateVerificationProof cd sk t t).expiresAt -
        (generateVerificationProof cd sk t t).timestamp = VALIDITY_MS := by
  constructor
  · intro cd sk t1 t2
    show t2 + VALIDITY_MS - t1 = VALIDITY_MS + (t2 - t1)
    ring
  · intro cd sk t
    show t + VALIDITY_MS - t = VALIDITY_MS
    ring

/-- C6: a token minted from a proof with a secret validates with that secret
before the embedded expiry, reconstructing the original userId, nodeId and
proofHash, and fails with the invalid-signature reason under every other
secret. -/
theorem c6_token_roundtrip (proof : VerificationProofData) (secret : String)
    (now : Int) (hexp : now ≤ proof.expiresAt) :
    ((validateProofToken (createProofToken proof secret) secret now).isValid = true ∧
      ∃ p, (validateProofToken (createProofToken proof secret) secret now).proof = some p ∧
        p.userId = proof.userId ∧ p.nodeId = proof.nodeId ∧
        p.proofHash = proof.proofHash) ∧
    ∀ secret2 : String, secret2 ≠ secret →
      validateProofToken (createProofToken proof secret) secret2 now =
        { isValid := false, proof := none,
          reason := some "Invalid token signature" } := by
  have hnotexp : ¬ proof.expiresAt < now := by omega
  constructor
  · simp only [validateProofToken, createProofToken, List.get?, Seg.isEmptyStr,
      Seg.decodePayload]
    simp [hnotexp]
  · intro secret2 hs
    simp only [validateProofToken, createProofToken, List.get?, Seg.isEmptyStr,
      Seg.decodePayload]
    rw [if_neg (by simp), if_pos (by simp [Seg.hmac.injEq]; exact Ne.symm hs)]

/-- C6 witness: the round-trip and the wrong-secret rejection at a concrete
proof, secret and clock. -/
theorem c6_token_roundtrip_witness :
    ((validateProofToken (createProofToken proofW "sec") "sec" 5).isValid = true ∧
      ∃ p, (validateProofToken (createProofToken proofW "sec") "sec" 5).proof = some p ∧
        p.userId = proofW.userId ∧ p.nodeId = proofW.nodeId ∧
        p.proofHash = proofW.proofHash) ∧
    validateProofToken (createProofToken proofW "sec") "other" 5 =
      { isValid := false, proof := none,
        reason := some "Invalid token signature" } := by
  have h := c6_token_roundtrip proofW "sec" 5 (by decide)
  exact ⟨h.1, h.2 "other" (by decide)⟩

/-- C8 counterexample: appending a further dot segment to a valid token gives
a string with two dot separators, yet validateProofToken accepts it instead
of returning the malformed-token error — the destructuring of the split
ignores every segment after the second. -/
theorem c8_extra_segment_counterexample :
    (validateProofToken (createProofToken proofW "sec" ++ [Seg.lit "x"])
      "sec" 5).isValid = true ∧
    (validateProofToken (createProofToken proofW "sec" ++ [Seg.lit "x"])
      "sec" 5).reason ≠ some "Invalid token format" := by
  constructor
  · decide
  · decide

/-- C8 as amended: validateProofToken returns the malformed-token error
exactly when the dot-split of the token fails to provide a nonempty first
segment and a nonempty second segment; a token with more than one dot is not
rejected for that, since segments beyond the second are ignored. -/
theorem c8_malformed_exactly_when_first_two_segments_absent
    (token : Token) (secret : String) (now : Int) :
    ((validateProofToken token secret now).reason = some "Invalid token format") ↔
      ¬ ∃ p s rest, token = p :: s :: rest ∧
        p.isEmptyStr = false ∧ s.isEmptyStr = false := by
  match token with
  | [] => simp [validateProofToken]
  | [p] => simp [validateProofToken, List.get?]
  | p :: s :: rest =>
    by_cases hp : p.isEmptyStr
    · simp only [validateProofToken, List.get?, hp, Bool.true_or, if_true]
      simp only [Option.some.injEq, true_iff]
      rintro ⟨p2, s2, rest2, heq, hp2, hs2⟩
      obtain ⟨h1, h2, h3⟩ : p = p2 ∧ s = s2 ∧ rest = rest2 := by
        simpa using heq
      rw [← h1, hp] at hp2
      exact absurd hp2 (by decide)
    · by_cases hs : s.isEmptyStr
      · simp only [validateProofToken, List.get?, hp, hs, Bool.or_true, if_true]
        simp only [Option.some.injEq, true_iff]
        rintro ⟨p2, s2, rest2, heq, hp2, hs2⟩
        obtain ⟨h1, h2, h3⟩ : p = p2 ∧ s = s2 ∧ rest = rest2 := by
          simpa using heq
        rw [← h2, hs] at hs2
        exact absurd hs2 (by decide)
      · have hrhs : ∃ p2 s2 rest2, p :: s :: rest = p2 :: s2 :: rest2 ∧
            p2.isEmptyStr = false ∧ s2.isEmptyStr = false :=
          ⟨p, s, rest, rfl, by simpa using hp, by simpa using hs⟩
        simp only [hrhs, not_true, iff_false]
        simp only [validateProofToken, List.get?, Bool.not_eq_true] at hp hs ⊢
        rw [hp, hs]
        rw [if_neg (by decide)]
        split
        · simp
        · cases hdec : p.decodePayload
          · simp
          · split
            · simp
            · split
              · simp
              · simp

/-- Bytewise XOR against the same keystream twice restores the input. -/
theorem ctrXorFrom_involutive (k : DerivedKey) (bs : List Nat) :
    ∀ i : Nat, ctrXorFrom k i (ctrXorFrom k i bs) = bs := by
  induction bs with
  | nil => intro i; rfl
  | cons b rest ih =>
    intro i
    show ((b ^^^ keystreamByte k i) ^^^ keystreamByte k i) ::
      ctrXorFrom k (i + 1) (ctrXorFrom k (i + 1) rest) = b :: rest
    rw [Nat.xor_cancel_right, ih (i + 1)]

/-- C9: decrypting with the encrypting password restores the private key for
every key, password, salt and iv, but decrypting with a different password
does not fail: AES-256-CTR is a stream cipher, decipher.final performs no
integrity or padding check, and the declared invalid-password error of the
source is unreachable — a wrong password silently yields a garbage byte
string, here computed explicitly at a concrete input. -/
theorem c9_decrypt_wrong_password_returns_bytes :
    (∀ (privateKey : List Nat) (password salt : String) (iv : List Nat),
      decryptPrivateKey (encryptPrivateKey privateKey password salt iv).encrypted
        salt password = privateKey) ∧
    decryptPrivateKey (encryptPrivateKey [1, 2, 3] "pw" "s" []).encrypted
      "s" "pwx" = [134, 135, 128] ∧
    ([134, 135, 128] : List Nat) ≠ [1, 2, 3] := by
  refine ⟨fun privateKey password salt iv => ?_, by decide, by decide⟩
  exact ctrXorFrom_involutive ⟨password, salt⟩ privateKey 0

/-- C2: the concrete ceremony scenario run against the store holding active
node N. The ceremony itself succeeds, but the proof it returns is signed
with the stored key of node N — the node's public key (User.ts line 304) —
so validateVerificationProof against that same public key rejects it with
the invalid-signature reason already at t0 + 89 days, where the claim
expects acceptance; at t0 + 91 days it rejects as expired, as claimed. -/
theorem c2_ceremony_proof_rejected_at_89_days :
    (conductVerificationCeremony stW reqW "U" 0 none).1.success = true ∧
    (conductVerificationCeremony stW reqW "U" 0 none).1.verificationProof =
      some cerProofW ∧
    validateVerificationProof cerProofW 5 (89 * 24 * 60 * 60 * 1000) =
      { isValid := false, reason := some "Invalid signature" } ∧
    validateVerificationProof cerProofW 5 (91 * 24 * 60 * 60 * 1000) =
      { isValid := false, reason := some "Proof has expired" } := by
  refine ⟨by decide, by decide, by decide, by decide⟩

/-- Invalidating every active event of a user leaves no event of that user
active: the filter for active events over the invalidated list is empty. -/
theorem filter_active_after_invalidate (events : List EventRow) (userId : String) :
    (events.map (fun e =>
        if e.user_id = userId && e.is_valid then { e with is_valid := false }
        else e)).filter
      (fun e => e.user_id = userId && e.is_valid) = [] := by
  rw [List.filter_eq_nil_iff]
  intro a ha
  obtain ⟨e, he, rfl⟩ := List.mem_map.mp ha
  by_cases hc : (e.user_id = userId && e.is_valid) = true
  · rw [if_pos hc]
    simp
  · rw [if_neg hc]
    exact hc

/-- A store whose events are an invalidated list followed by one active
event of the user has exactly that event active for the user. -/
theorem activeEventsFor_append_single (nodes : List NodeRow)
    (audits : List AuditRow) (nid : Nat) (events : List EventRow)
    (userId : String) (ne : EventRow)
    (hu : ne.user_id = userId) (hv : ne.is_valid = true) :
    Store.activeEventsFor
      { nodes := nodes
        events := (events.map (fun e =>
          if e.user_id = userId && e.is_valid then { e with is_valid := false }
          else e)) ++ [ne]
        audits := audits
        nextEventId := nid } userId = [ne] := by
  show List.filter _ _ = _
  rw [List.filter_append, filter_active_after_invalidate]
  simp [hu, hv]

/-- C3: whenever renewVerification succeeds, exactly one verification event
of the user is active in the resulting store, namely the freshly inserted
renewal event (its id is the store's next event id, so it is not one of the
pre-existing rows); and whenever it does not succeed, the store is exactly
the original one — the transaction commits the invalidate-old plus
insert-new writes as one atomic step, so no observable store has zero or
two active events for the user. -/
theorem c3_renewal_exactly_one_active_event (st : Store)
    (userId nodeId operatorId : String) (t : Int) (exc : Option RenewalExc)
    (hfresh : ∀ e ∈ st.events, e.eventId < st.nextEventId) :
    ((renewVerification st userId nodeId operatorId t exc).1.success = true →
      ∃ e, (renewVerification st userId nodeId operatorId t exc).2.activeEventsFor
          userId = [e] ∧
        e.eventId = st.nextEventId ∧ e.user_id = userId ∧ e.is_valid = true ∧
        e.renewal = true ∧ e ∉ st.events) ∧
    ((renewVerification st userId nodeId operatorId t exc).1.success = false →
      (renewVerification st userId nodeId operatorId t exc).2 = st) := by
  have main : ∀ res st2,
      renewVerification st userId nodeId operatorId t exc = (res, st2) →
      (res.success = true →
        ∃ e, st2.activeEventsFor userId = [e] ∧
          e.eventId = st.nextEventId ∧ e.user_id = userId ∧ e.is_valid = true ∧
          e.renewal = true ∧ e ∉ st.events) ∧
      (res.success = false → st2 = st) := by
    intro res st2 h
    unfold renewVerification at h
    split at h
    · rw [Prod.mk.injEq] at h
      obtain ⟨h1, h2⟩ := h
      subst h1
      subst h2
      exact ⟨fun htrue => by simp at htrue, fun _ => rfl⟩
    · split at h
      · rw [Prod.mk.injEq] at h
        obtain ⟨h1, h2⟩ := h
        subst h1
        subst h2
        exact ⟨fun htrue => by simp at htrue, fun _ => rfl⟩
      · split at h
        · rw [Prod.mk.injEq] at h
          obtain ⟨h1, h2⟩ := h
          subst h1
          subst h2
          exact ⟨fun htrue => by simp at htrue, fun _ => rfl⟩
        · split at h
          · rw [Prod.mk.injEq] at h
            obtain ⟨h1, h2⟩ := h
            subst h1
            subst h2
            exact ⟨fun htrue => by simp at htrue, fun _ => rfl⟩
          · split at h
            · rw [Prod.mk.injEq] at h
              obtain ⟨h1, h2⟩ := h
              subst h1
              subst h2
              exact ⟨fun htrue => by simp at htrue, fun _ => rfl⟩
            · split at h
              · rw [Prod.mk.injEq] at h
                obtain ⟨h1, h2⟩ := h
                subst h1
                subst h2
                exact ⟨fun htrue => by simp at htrue, fun _ => rfl⟩
              · rw [Prod.mk.injEq] at h
                obtain ⟨h1, h2⟩ := h
                subst h1
                subst h2
                refine ⟨fun _ => ?_, fun hfalse => by simp at hfalse⟩
                exact ⟨_, activeEventsFor_append_single _ _ _ _ _ _ rfl rfl,
                  rfl, rfl, rfl, rfl,
                  fun hmem => lt_irrefl st.nextEventId (hfresh _ hmem)⟩
  exact ⟨fun hs => (main _ _ rfl).1 hs, fun hs => (main _ _ rfl).2 hs⟩

/-- C3 witness: a successful concrete renewal on a store with one active
event leaves exactly one active event, the new one. -/
theorem c3_renewal_exactly_one_active_event_witness :
    ∃ e, (renewVerification stRenewW "U" "N" "op" 50 none).2.activeEventsFor
        "U" = [e] ∧
      e.eventId = stRenewW.nextEventId ∧ e.user_id = "U" ∧ e.is_valid = true ∧
      e.renewal = true ∧ e ∉ stRenewW.events :=
  (c3_renewal_exactly_one_active_event stRenewW "U" "N" "op" 50 none
    (by decide)).1 (by decide)

/-- C5: conductVerificationCeremony is transactional: when it reports
success the resulting store is exactly the original store with the three
writes applied together — the new verification event appended, the node
counter incremented, the audit entry appended — and when it reports failure
(a gate rejection or an exception at any awaited operation of the
transactional phase) the resulting store is exactly the original store, and
the caller receives a structured failure result. -/
theorem c5_ceremony_transaction_atomic (st : Store) (req : CeremonyRequest)
    (uuid : String) (t : Int) (exc : Option CeremonyExc) :
    ((conductVerificationCeremony st req uuid t exc).1.success = true →
      ∃ e a, (conductVerificationCeremony st req uuid t exc).2 =
          { nodes := st.nodes.map (fun n =>
              if n.id = req.nodeId then
                { n with verification_count := n.verification_count + 1 }
              else n)
            events := st.events ++ [e]
            audits := st.audits ++ [a]
            nextEventId := st.nextEventId + 1 } ∧
        e.user_id = uuid ∧ e.is_valid = true ∧
        a.action = "verification_ceremony") ∧
    ((conductVerificationCeremony st req uuid t exc).1.success = false →
      (conductVerificationCeremony st req uuid t exc).2 = st) := by
  have main : ∀ res st2,
      conductVerificationCeremony st req uuid t exc = (res, st2) →
      (res.success = true →
        ∃ e a, st2 =
            { nodes := st.nodes.map (fun n =>
                if n.id = req.nodeId then
                  { n with verification_count := n.verification_count + 1 }
                else n)
              events := st.events ++ [e]
              audits := st.audits ++ [a]
              nextEventId := st.nextEventId + 1 } ∧
          e.user_id = uuid ∧ e.is_valid = true ∧
          a.action = "verification_ceremony") ∧
      (res.success = false → st2 = st) := by
    intro res st2 h
    unfold conductVerificationCeremony at h
    simp only [findUserByDocumentHash] at h
    split at h
    · rw [Prod.mk.injEq] at h
      obtain ⟨h1, h2⟩ := h
      subst h1
      subst h2
      exact ⟨fun htrue => by simp at htrue, fun _ => rfl⟩
    · split at h
      · rw [Prod.mk.injEq] at h
        obtain ⟨h1, h2⟩ := h
        subst h1
        subst h2
        exact ⟨fun htrue => by simp at htrue, fun _ => rfl⟩
      · split at h
        · rw [Prod.mk.injEq] at h
          obtain ⟨h1, h2⟩ := h
          subst h1
          subst h2
          exact ⟨fun htrue => by simp at htrue, fun _ => rfl⟩
        · rw [Prod.mk.injEq] at h
          obtain ⟨h1, h2⟩ := h
          subst h1
          subst h2
          refine ⟨fun _ => ⟨_, _, rfl, rfl, rfl, rfl⟩,
            fun hfalse => by simp at hfalse⟩
  exact ⟨fun hs => (main _ _ rfl).1 hs, fun hs => (main _ _ rfl).2 hs⟩

/-- C5 witness: the concrete ceremony commits all three writes when no
exception occurs, and leaves the store untouched when the audit insert
raises. -/
theorem c5_ceremony_transaction_atomic_witness :
    (∃ e a, (conductVerificationCeremony stW reqW "U" 0 none).2 =
        { nodes := stW.nodes.map (fun n =>
            if n.id = reqW.nodeId then
              { n with verification_count := n.verification_count + 1 }
            else n)
          events := stW.events ++ [e]
          audits := stW.audits ++ [a]
          nextEventId := stW.nextEventId + 1 } ∧
      e.user_id = "U" ∧ e.is_valid = true ∧
      a.action = "verification_ceremony") ∧
    (conductVerificationCeremony stW reqW "U" 0
      (some CeremonyExc.insertAudit)).2 = stW :=
  ⟨(c5_ceremony_transaction_atomic stW reqW "U" 0 none).1 (by decide),
    (c5_ceremony_transaction_atomic stW reqW "U" 0
      (some CeremonyExc.insertAudit)).2 (by decide)⟩

end MeatSocial
